import Mathlib

/-!
Verification of the Atlas trip-planner backend (`agent_logic.py`, `main.py`).

The tools receive their argument as a string and immediately call
`json.loads` on it; we model a tool argument as the outcome of that decode
step: `Except String JValue`, where the error carries the decoder's message.
JSON values themselves are modelled by the mutual inductive family
`JValue` / `JArray` / `JObject` (objects are association lists, as produced
by `json.loads`; numbers are modelled as integers).  Python dictionary
access, `.get`, indexing, slicing and truthiness are embedded by the `jget`,
`pyGet`, `pyGetD`, `pyIndex0`, `pySlice3` and `pyTruthy` functions below;
exception messages approximate CPython's wording (their exact text is never
load-bearing, only the fixed prefixes written in the source are).
-/

mutual

inductive JValue where
  | null : JValue
  | bool : Bool → JValue
  | num : Int → JValue
  | str : String → JValue
  | arr : JArray → JValue
  | obj : JObject → JValue

inductive JArray where
  | nil : JArray
  | cons : JValue → JArray → JArray

inductive JObject where
  | nil : JObject
  | cons : String → JValue → JObject → JObject

end

def JArray.toList : JArray → List JValue
  | .nil => []
  | .cons v tl => v :: tl.toList

/-- First binding of a key in an object (keys coming out of `json.loads`
are unique, so first-match equals dictionary lookup). -/
def JObject.find? : JObject → String → Option JValue
  | .nil, _ => none
  | .cons k v tl, key => if k == key then some v else tl.find? key

/-- The Python type name of a value, used in exception messages. -/
def typeName : JValue → String
  | .null => "NoneType"
  | .bool _ => "bool"
  | .num _ => "int"
  | .str _ => "str"
  | .arr _ => "list"
  | .obj _ => "dict"

/-- Python truthiness of a decoded JSON value. -/
def pyTruthy : JValue → Bool
  | .null => false
  | .bool b => b
  | .num n => n != 0
  | .str s => s != ""
  | .arr .nil => false
  | .arr (.cons _ _) => true
  | .obj .nil => false
  | .obj (.cons _ _ _) => true

/-- Decimal digits of a natural number, fuel-structured so that it reduces
definitionally (`decRepr n` supplies ample fuel `n + 1`). -/
def decDigits (fuel : Nat) (n : Nat) : List Char :=
  match fuel with
  | 0 => []
  | f + 1 =>
    if n < 10 then [Nat.digitChar n]
    else decDigits f (n / 10) ++ [Nat.digitChar (n % 10)]

/-- Decimal rendering of a natural number (model of Python's `str` on a
non-negative `int`). -/
def decRepr (n : Nat) : String := String.mk (decDigits (n + 1) n)

/-- Model of Python's `str` on an `int`. -/
def pyIntRepr (i : Int) : String :=
  if i < 0 then "-" ++ decRepr i.natAbs else decRepr i.natAbs

mutual

/-- Model of Python's `repr` on a value decoded from JSON. -/
def pyRepr : JValue → String
  | .null => "None"
  | .bool true => "True"
  | .bool false => "False"
  | .num n => pyIntRepr n
  | .str s => "'" ++ s ++ "'"
  | .arr a => "[" ++ String.intercalate ", " (pyReprArr a) ++ "]"
  | .obj o => "\x7b" ++ String.intercalate ", " (pyReprObj o) ++ "\x7d"

def pyReprArr : JArray → List String
  | .nil => []
  | .cons v tl => pyRepr v :: pyReprArr tl

def pyReprObj : JObject → List String
  | .nil => []
  | .cons k v tl => ("'" ++ k ++ "': " ++ pyRepr v) :: pyReprObj tl

end

/-- Model of Python's `str` on a value decoded from JSON (as applied by
f-string interpolation): a string renders as itself, anything else as its
`repr`. -/
def pyStr : JValue → String
  | .str s => s
  | v => pyRepr v

/-- Python `value[key]` with a string key: returns the bound value, raises
`KeyError` on a dictionary without the key, `TypeError` otherwise. -/
def jget (v : JValue) (key : String) : Except String JValue :=
  match v with
  | .obj o =>
    match o.find? key with
    | some x => .ok x
    | none => .error ("'" ++ key ++ "'")
  | _ => .error ("'" ++ typeName v ++ "' object is not subscriptable")

/-- Python `value.get(key)`: `AttributeError` on a non-dictionary, otherwise
the (optional) bound value. -/
def pyGet (v : JValue) (key : String) : Except String (Option JValue) :=
  match v with
  | .obj o => .ok (o.find? key)
  | _ => .error ("'" ++ typeName v ++ "' object has no attribute 'get'")

/-- Python `value.get(key, default)`. -/
def pyGetD (v : JValue) (key : String) (dflt : JValue) : Except String JValue :=
  match pyGet v key with
  | .error e => .error e
  | .ok none => .ok dflt
  | .ok (some x) => .ok x

/-- Python `value[0]`. -/
def pyIndex0 (v : JValue) : Except String JValue :=
  match v with
  | .arr (.cons h _) => .ok h
  | .arr .nil => .error "list index out of range"
  | .str s =>
    if s = "" then .error "string index out of range"
    else .ok (.str (String.mk [s.head]))
  | .obj _ => .error "0"
  | _ => .error ("'" ++ typeName v ++ "' object is not subscriptable")

/-- Python `value[:3]` followed by iteration over the slice, as in the
`for flight in data["data"]["topFlights"][:3]` loop: lists are truncated to
their first three elements, strings slice to their first three characters
(iterating a string yields one-character strings), everything else raises. -/
def pySlice3 (v : JValue) : Except String (List JValue) :=
  match v with
  | .arr a => .ok (a.toList.take 3)
  | .str s => .ok ((s.toList.take 3).map (fun c => JValue.str (String.mk [c])))
  | .obj _ => .error "unhashable type: 'slice'"
  | _ => .error ("'" ++ typeName v ++ "' object is not subscriptable")

/-!
Section: the four tools of `agent_logic.py`.
-/

/-- Embedding of `web_search` (`agent_logic.py`, lines 19-37).  The body constructs a
`GoogleSearchAPIWrapper` from environment credentials and returns
`search.run(query)`.  There is no `try`/`except` in this function, so any
fault of the provider call (missing credential, network failure, decode
failure) propagates to the caller; we model the provider step
(construction plus `.run`) as a function `searchRun` whose `Except.error`
outcome is a raised exception, and `web_search` passes it through
unhandled. -/
def web_search (searchRun : String → Except String String) (query : String) :
    Except String String :=
  searchRun query

/-- The process-local calendar date `datetime.date.today()` reads. -/
structure PyDate where
  year : Nat
  month : Nat
  day : Nat

/-- A calendar date the system clock can actually produce. -/
def PyDate.valid (d : PyDate) : Prop :=
  1 ≤ d.month ∧ d.month ≤ 12 ∧ 1 ≤ d.day ∧ d.day ≤ 31 ∧
    1000 ≤ d.year ∧ d.year < 10000

instance (d : PyDate) : Decidable d.valid := by
  unfold PyDate.valid; infer_instance

/-- Sakamoto's day-of-week algorithm (0 = Sunday), the arithmetic behind
`strftime('%A')`. -/
def dayOfWeekIndex (d : PyDate) : Nat :=
  let t : List Nat := [0, 3, 2, 5, 0, 3, 5, 1, 4, 6, 2, 4]
  let y := if d.month < 3 then d.year - 1 else d.year
  (y + y / 4 - y / 100 + y / 400 + t.getD (d.month - 1) 0 + d.day) % 7

def weekdayNames : List String :=
  ["Sunday", "Monday", "Tuesday", "Wednesday", "Thursday", "Friday", "Saturday"]

/-- Rendering of `strftime('%A')`. -/
def weekdayName (d : PyDate) : String := weekdayNames.getD (dayOfWeekIndex d) ""

/-- Rendering of `strftime('%B')`. -/
def monthName (m : Nat) : String :=
  match m with
  | 1 => "January" | 2 => "February" | 3 => "March" | 4 => "April"
  | 5 => "May" | 6 => "June" | 7 => "July" | 8 => "August"
  | 9 => "September" | 10 => "October" | 11 => "November" | 12 => "December"
  | _ => ""

/-- Rendering of `strftime('%d')`: the day of the month, zero-padded to two digits. -/
def pad2 (n : Nat) : String :=
  if n < 10 then "0" ++ decRepr n else decRepr n

/-- Embedding of `get_current_date` (`agent_logic.py`, lines 39-45): renders
`datetime.date.today().strftime('%A, %B %d, %Y')` into a fixed sentence;
the `query` argument is ignored. -/
def get_current_date (today : PyDate) (query : String) : String :=
  "Today's date is " ++ weekdayName today ++ ", " ++ monthName today.month ++
    " " ++ pad2 today.day ++ ", " ++ decRepr today.year ++ "."

/-- The `try` block of `search_hotels` (`agent_logic.py`, lines 55-60):
`json.loads` on the first argument, then the three key lookups, in source
order.  Any step's exception aborts the block. -/
def hotelParse (origin : Except String JValue) :
    Except String (JValue × JValue × JValue) :=
  match origin with
  | .error e => .error e
  | .ok d =>
    match jget d "destination" with
    | .error e => .error e
    | .ok dest =>
      match jget d "check_in_date" with
      | .error e => .error e
      | .ok ci =>
        match jget d "check_out_date" with
        | .error e => .error e
        | .ok co => .ok (dest, ci, co)

/-- Embedding of `search_hotels` (`agent_logic.py`, lines 47-65).  The argument is the
outcome of `json.loads` on the tool's first (string) parameter.  On success
the fixed mock-offer string is returned (only `destination` is
interpolated); the `except Exception` handler turns every fault into the
descriptive `Error processing hotel search: ...` string. -/
def search_hotels (origin : Except String JValue) : String :=
  match hotelParse origin with
  | .ok (dest, _, _) =>
    "Found 3 hotels in " ++ pyStr dest ++
      ": 1. The Grand Hotel (₹8000/night, 4.5 stars), 2. City Inn (₹4500/night, 4.0 stars), 3. Budget Stay (₹2500/night, 3.5 stars)."
  | .error e =>
    "Error processing hotel search: " ++ e ++
      ". Please ensure the input is a valid JSON with 'destination', 'check_in_date', and 'check_out_date' keys."

/-- The query-string dictionary `search_flights` builds for `requests.get`
(`agent_logic.py`, lines 87-92): the airport pair is hardcoded, only the
decoded `departure_date` value flows in. -/
structure FlightQuery where
  departure_airport_code : String
  arrival_airport_code : String
  date : JValue
  currency : String

/-- Outcome of the `requests.get` / `raise_for_status` / `response.json()`
sequence: either a `requests.exceptions.RequestException` (network fault or
4xx/5xx status), or a body whose JSON decode may itself raise. -/
inductive HttpOutcome where
  | reqError : String → HttpOutcome
  | response : Except String JValue → HttpOutcome

/-- The first part of the `try` block of `search_flights` (`agent_logic.py`,
lines 77-80): `json.loads` then the three key lookups, in source order. -/
def flightParse (origin : Except String JValue) :
    Except String (JValue × JValue × JValue) :=
  match origin with
  | .error e => .error e
  | .ok d =>
    match jget d "origin" with
    | .error e => .error e
    | .ok oc =>
      match jget d "destination" with
      | .error e => .error e
      | .ok dc =>
        match jget d "departure_date" with
        | .error e => .error e
        | .ok dv => .ok (oc, dc, dv)

/-- The `No flights found from ... to ... on ...` message
(`agent_logic.py`, line 106). -/
def noFlightsMsg (oc dc dv : JValue) : String :=
  "No flights found from " ++ pyStr oc ++ " to " ++ pyStr dc ++ " on " ++
    pyStr dv ++ "."

/-- One iteration of the formatting loop (`agent_logic.py`, lines 111-116):
the f-string evaluates `flight.get('flights', [{}])[0].get('airline', 'N/A')`,
`flight.get('price', 'N/A')`, `flight.get('duration', {}).get('text', 'N/A')`
and `flight.get('stops', 'N/A')` in that order; any raised exception aborts
the whole tool body into its `except` handlers. -/
def renderFlight (flight : JValue) : Except String String :=
  match pyGetD flight "flights"
      (.arr (.cons (.obj .nil) .nil)) with
  | .error e => .error e
  | .ok flightsVal =>
    match pyIndex0 flightsVal with
    | .error e => .error e
    | .ok first =>
      match pyGetD first "airline" (.str "N/A") with
      | .error e => .error e
      | .ok airline =>
        match pyGetD flight "price" (.str "N/A") with
        | .error e => .error e
        | .ok price =>
          match pyGetD flight "duration" (.obj .nil) with
          | .error e => .error e
          | .ok dur =>
            match pyGetD dur "text" (.str "N/A") with
            | .error e => .error e
            | .ok durText =>
              match pyGetD flight "stops" (.str "N/A") with
              | .error e => .error e
              | .ok stops =>
                .ok ("- Airline: " ++ pyStr airline ++ ", Price: $" ++
                  pyStr price ++ ", Duration: " ++ pyStr durText ++
                  ", Stops: " ++ pyStr stops)

/-- The `formatted_flights` accumulation loop: renders each sliced entry in
order, aborting on the first raised exception. -/
def renderFlights : List JValue → Except String (List String)
  | [] => .ok []
  | f :: fs =>
    match renderFlight f with
    | .error e => .error e
    | .ok s =>
      match renderFlights fs with
      | .error e => .error e
      | .ok ss => .ok (s :: ss)

/-- The response-handling part of the `try` block (`agent_logic.py`,
lines 105-121), given the three decoded argument fields and the decoded
response body.  An `Except.error` is an exception escaping to the
`except Exception` handler. -/
def flightResponseHandling (oc dc dv : JValue) (data : JValue) :
    Except String String :=
  if pyTruthy data = false then .ok (noFlightsMsg oc dc dv)
  else
    match pyGet data "data" with
    | .error e => .error e
    | .ok none => .ok (noFlightsMsg oc dc dv)
    | .ok (some df) =>
      if pyTruthy df = false then .ok (noFlightsMsg oc dc dv)
      else
        match pyGet df "topFlights" with
        | .error e => .error e
        | .ok none => .ok (noFlightsMsg oc dc dv)
        | .ok (some tf) =>
          if pyTruthy tf = false then .ok (noFlightsMsg oc dc dv)
          else
            match pySlice3 tf with
            | .error e => .error e
            | .ok flights =>
              match renderFlights flights with
              | .error e => .error e
              | .ok formatted =>
                if formatted.isEmpty then
                  .ok ("Could not parse flight information from " ++
                    pyStr oc ++ " to " ++ pyStr dc ++ ".")
                else
                  .ok ("Here are the top flight options:\n" ++
                    String.intercalate "\n" formatted)

/-- The generic `except Exception` handler of `search_flights`
(`agent_logic.py`, line 126). -/
def flightGenericError (e : String) : String :=
  "An error occurred while searching for flights: " ++ e ++
    ". Please ensure the input is a valid JSON and the date is in YYYY-MM-DD format."

/-- Embedding of `search_flights` (`agent_logic.py`, lines 67-126), instrumented to also
return the query string handed to `requests.get` (`none` when the body
raises before reaching the HTTP call).  `origin` is the outcome of
`json.loads` on the tool's first parameter; `net` is the environment's
answer to the outgoing request.  `requests.exceptions.RequestException`
lands in the first handler, every other exception in the second. -/
def search_flights_core (origin : Except String JValue)
    (net : FlightQuery → HttpOutcome) : String × Option FlightQuery :=
  match flightParse origin with
  | .error e => (flightGenericError e, none)
  | .ok (oc, dc, dv) =>
    let querystring : FlightQuery :=
      { departure_airport_code := "BOM", arrival_airport_code := "GOI",
        date := dv, currency := "INR" }
    match net querystring with
    | .reqError e => ("API request failed: " ++ e, some querystring)
    | .response (.error e) => (flightGenericError e, some querystring)
    | .response (.ok data) =>
      match flightResponseHandling oc dc dv data with
      | .ok s => (s, some querystring)
      | .error e => (flightGenericError e, some querystring)

/-- Embedding of `search_flights` as the agent invokes it: just the returned text. -/
def search_flights (origin : Except String JValue)
    (net : FlightQuery → HttpOutcome) : String :=
  (search_flights_core origin net).1

/-!
Section: the tool registry (`agent_logic.py`, line 129).
-/

/-- The four registry entries `tools = [web_search, search_hotels,
search_flights, get_current_date]`. -/
inductive ToolName where
  | web_search | get_current_date | search_hotels | search_flights
deriving DecidableEq

/-- A tool's text argument together with the outcome `json.loads` has on it
(the decode is performed inside the tools that need it). -/
structure ToolArg where
  raw : String
  parsed : Except String JValue

/-- The process environment a tool invocation runs in: the web-search
provider, the system clock, and the flights HTTP endpoint. -/
structure AgentEnv where
  searchRun : String → Except String String
  today : PyDate
  net : FlightQuery → HttpOutcome

/-- Outcome of invoking a registry tool: a returned string, or a raised
exception escaping the tool. -/
inductive ToolResult where
  | ok : String → ToolResult
  | raised : String → ToolResult
deriving DecidableEq

def ToolResult.isRaised : ToolResult → Bool
  | .ok _ => false
  | .raised _ => true

/-- Invocation of a registry tool.  `search_hotels`, `search_flights` and
`get_current_date` return a string on every path (their bodies are wrapped
in `try`/`except Exception`, or cannot fail); `web_search` has no handler,
so a provider fault escapes as a raised exception. -/
def invokeTool (env : AgentEnv) : ToolName → ToolArg → ToolResult
  | .web_search, a =>
    match web_search env.searchRun a.raw with
    | .ok s => .ok s
    | .error e => .raised e
  | .get_current_date, a => .ok (get_current_date env.today a.raw)
  | .search_hotels, a => .ok (search_hotels a.parsed)
  | .search_flights, a => .ok (search_flights a.parsed env.net)

/-!
Section: the request handler (`main.py`).
-/

/-- The pydantic `UserRequest` model (`main.py`, lines 17-22); requests that
fail its structural validation never reach the handler. -/
structure UserRequest where
  origin : String
  destination : String
  start_date : String
  duration_days : Int
  notes : Option String

/-- Rendering of `request.notes if request.notes else "None"`: `None` and the empty
string are both falsy. -/
def renderNotes : Option String → String
  | none => "None"
  | some s => if s = "" then "None" else s

/-- The `master_prompt` f-string (`main.py`, lines 33-51), rendered exactly
as Python does, with its leading/trailing newlines and four-space
indentation. -/
def master_prompt (req : UserRequest) : String :=
  "\n    You are an expert travel planner. Your task is to create a detailed itinerary based on the following information:\n    - Origin: " ++
  req.origin ++
  "\n    - Destination: " ++ req.destination ++
  "\n    - Start Date: " ++ req.start_date ++
  "\n    - Trip Duration: " ++ pyIntRepr req.duration_days ++
  " days\n\n    User's additional notes: " ++ renderNotes req.notes ++
  "\n\n    Please perform the following steps:\n    1. Search for round-trip flights for the given origin, destination, and start date.\n    2. Based on the start date and duration, determine the check-in and check-out dates.\n    3. Search for 3-4 highly-rated hotel options for these dates.\n    4. Search for the top 3-5 points of interest or activities at the destination, keeping the user's notes in mind.\n    5. Synthesize all this information into a complete, day-by-day itinerary.\n    IMPORTANT: Your final response MUST start with the words \"Final Answer:\" and should contain ONLY the detailed itinerary that follows. Do not take any more actions after this.\n    \n    Your final answer must be only the detailed itinerary. It should include daily activities and a summary of the flight and hotel options you found.\n    "

/-- The JSON body `plan_trip` returns: `{"plan": ...}` carrying the agent's
`output` value, or `{"error": ...}` carrying the handler's message. -/
inductive PlanBody where
  | plan : JValue → PlanBody
  | error : String → PlanBody

/-- Embedding of `plan_trip` (`main.py`, lines 25-59), instrumented with the list of
inputs handed to `trip_planner_agent.invoke` (the source contains exactly
one call site, inside the `try`).  `agent` maps the prompt (the `input`
field of `agent_input`) to the response dictionary, or to a raised
exception; the `response['output']` lookup happens inside the `try`, so its
`KeyError` also lands in the `except` branch.  The first component is the
HTTP status: FastAPI answers a plain dictionary return with 200 on both
branches. -/
def plan_trip_logged (agent : String → Except String JValue)
    (req : UserRequest) : (Nat × PlanBody) × List String :=
  let prompt := master_prompt req
  ((200,
    match agent prompt with
    | .ok response =>
      match jget response "output" with
      | .ok out => PlanBody.plan out
      | .error e => PlanBody.error ("An error occurred: " ++ e)
    | .error e => PlanBody.error ("An error occurred: " ++ e)),
   [prompt])

/-- The observable part of `plan_trip`'s answer: HTTP status and body. -/
def plan_trip (agent : String → Except String JValue) (req : UserRequest) :
    Nat × PlanBody :=
  (plan_trip_logged agent req).1

/-!
Section: the reasoning loop of `create_trip_planner_agent`.

Modelled from the spec: the ReAct loop itself is supplied by the external
framework (`AgentExecutor` / `create_react_agent`, `agent_logic.py`,
lines 133-159) and its code is not part of this repository; the model below
follows the algorithm of the specification's §4.2 — alternate model
completions with tool executions, convert unknown tool names and raised
tool faults into error-text observations, stop at a `Final Answer:` shape,
and bound the number of iterations by the framework-default cap. -/

/-- Modelled from the spec: the two shapes a model completion is parsed
into — a tool invocation (`Action:` / `Action Input:`) or a
`Final Answer:`. -/
inductive ModelOutput where
  | action : String → String → ModelOutput
  | finalAnswer : String → ModelOutput
deriving DecidableEq

/-- Modelled from the spec: one trace step `{action, action_input,
observation}` of the transcript. -/
structure TraceStep where
  action : String
  action_input : String
  observation : String

/-- Modelled from the spec: executing one requested tool call against the
registry — an unknown name and a raised tool fault both become error-text
observations (§4.2, step 4). -/
def toolObservation (env : AgentEnv) (reg : List (String × ToolName))
    (name input : String) (loads : String → Except String JValue) : String :=
  match reg.find? (fun t => t.1 == name) with
  | none => name ++ " is not a valid tool, try one of the registered tool names."
  | some t =>
    match invokeTool env t.2 ⟨input, loads input⟩ with
    | .ok s => s
    | .raised e => e

/-- Modelled from the spec: the registry handed to the agent
(`agent_logic.py`, line 129). -/
def reactRegistry : List (String × ToolName) :=
  [("web_search", ToolName.web_search),
   ("search_hotels", ToolName.search_hotels),
   ("search_flights", ToolName.search_flights),
   ("get_current_date", ToolName.get_current_date)]

/-- Modelled from the spec: the bounded ReAct loop.  `llm` is the model's
completion as a function of the transcript so far; each non-final completion
consumes one iteration of fuel; exhausted fuel is the framework's
execution-limit failure. -/
def runReactLoop (env : AgentEnv) (loads : String → Except String JValue)
    (llm : List TraceStep → ModelOutput) :
    Nat → List TraceStep → Except String String
  | 0, _ => .error "Agent stopped due to iteration limit or time limit."
  | fuel + 1, transcript =>
    match llm transcript with
    | .finalAnswer text => .ok text
    | .action name input =>
      let obs := toolObservation env reactRegistry name input loads
      runReactLoop env loads llm fuel
        (transcript ++ [⟨name, input, obs⟩])

/-- Modelled from the spec: `AgentExecutor`'s framework-default iteration
cap (`max_iterations` is not overridden in `create_trip_planner_agent`). -/
def agentExecutorMaxIterations : Nat := 15

/-- Modelled from the spec: running the loop built by
`create_trip_planner_agent` on one task. -/
def runTripPlannerAgent (env : AgentEnv)
    (loads : String → Except String JValue)
    (llm : List TraceStep → ModelOutput) : Except String String :=
  runReactLoop env loads llm agentExecutorMaxIterations []

/-!
Section: helper lemmas.
-/

theorem String.data_append' (a b : String) : (a ++ b).data = a.data ++ b.data := rfl

theorem strAppend_assoc (a b c : String) : (a ++ b) ++ c = a ++ (b ++ c) := by
  apply String.ext
  simp [String.data_append', List.append_assoc]

theorem strAppend_ne_empty_left (a b : String) (h : a.data ≠ []) : a ++ b ≠ "" := by
  intro hEq
  have : (a ++ b).data = [] := by rw [hEq]
  rw [String.data_append'] at this
  exact h (List.append_eq_nil.mp this).1

/-- A well-formed hotel-search argument used to instantiate universally
quantified theorems. -/
def hotelArgA : JValue :=
  .obj (.cons "destination" (.str "Goa")
    (.cons "check_in_date" (.str "2025-10-15")
      (.cons "check_out_date" (.str "2025-10-18") .nil)))

/-- Like `hotelArgA` but with different dates (same destination). -/
def hotelArgB : JValue :=
  .obj (.cons "destination" (.str "Goa")
    (.cons "check_in_date" (.str "2026-01-02")
      (.cons "check_out_date" (.str "2026-01-05") .nil)))

/-- A well-formed flight-search argument. -/
def flightArgA : JValue :=
  .obj (.cons "origin" (.str "Mumbai")
    (.cons "destination" (.str "Goa")
      (.cons "departure_date" (.str "2025-10-15") .nil)))

/-- Like `flightArgA` but with a different origin and destination (same
departure date). -/
def flightArgB : JValue :=
  .obj (.cons "origin" (.str "Delhi")
    (.cons "destination" (.str "Kochi")
      (.cons "departure_date" (.str "2025-10-15") .nil)))

/-- An environment whose web-search provider raises (as it does when
`GOOGLE_API_KEY` is unset or the network call fails). -/
def failingSearchEnv : AgentEnv where
  searchRun := fun _ => .error "Did not find google_api_key"
  today := ⟨2025, 10, 15⟩
  net := fun _ => .reqError "503 Server Error"

/-!
Section: the claims.
-/

/-- C1 (amended): for every tool in the registry other than `web_search`
and every environment and input argument, invoking the tool never raises:
`get_current_date` always returns its formatted string, and
`search_hotels` / `search_flights` wrap their whole bodies in
`try`/`except Exception`, so every failure becomes a descriptive text
result. -/
theorem claim_C1_amended (env : AgentEnv) (name : ToolName) (arg : ToolArg)
    (h : name ≠ ToolName.web_search) :
    (invokeTool env name arg).isRaised = false := by
  cases name with
  | web_search => exact absurd rfl h
  | get_current_date => rfl
  | search_hotels => rfl
  | search_flights => rfl

/-- C1 witness: `search_hotels` does not raise even in a failing
environment on an undecodable argument. -/
theorem claim_C1_witness :
    ToolName.search_hotels ≠ ToolName.web_search ∧
      (invokeTool failingSearchEnv ToolName.search_hotels
        ⟨"not json", .error "Expecting value: line 1 column 1 (char 0)"⟩).isRaised
        = false :=
  ⟨by decide,
   claim_C1_amended failingSearchEnv ToolName.search_hotels
     ⟨"not json", .error "Expecting value: line 1 column 1 (char 0)"⟩
     (by decide)⟩

/-- C1 counterexample: the claim as stated is false for `web_search`, whose
body has no `try`/`except` — a provider fault (here: missing credential)
escapes the tool as a raised exception instead of a text result. -/
theorem claim_C1_counterexample :
    (invokeTool failingSearchEnv ToolName.web_search
      ⟨"best beaches in Goa", .error "Expecting value: line 1 column 1 (char 0)"⟩).isRaised
      = true := rfl

/-- C2: for every structurally valid request reaching the handler, and every
behaviour of the agent, `plan_trip` hands the agent exactly one input — the
rendered `master_prompt` — answers with HTTP status 200, and returns
`{"plan": output}` when `invoke` returns a dictionary with an `output` key,
and `{"error": "An error occurred: ..."}` when the loop (or the `output`
lookup) raises. -/
theorem claim_C2 (agent : String → Except String JValue) (req : UserRequest) :
    (plan_trip agent req).1 = 200 ∧
    (plan_trip_logged agent req).2 = [master_prompt req] ∧
    (match agent (master_prompt req) with
     | .ok response =>
       match jget response "output" with
       | .ok out => (plan_trip agent req).2 = PlanBody.plan out
       | .error e =>
         (plan_trip agent req).2 = PlanBody.error ("An error occurred: " ++ e)
     | .error e =>
       (plan_trip agent req).2 = PlanBody.error ("An error occurred: " ++ e)) := by
  refine ⟨rfl, rfl, ?_⟩
  cases hA : agent (master_prompt req) with
  | error e => simp [plan_trip, plan_trip_logged, hA]
  | ok response =>
    cases hO : jget response "output" with
    | error e => simp [plan_trip, plan_trip_logged, hA, hO]
    | ok out => simp [plan_trip, plan_trip_logged, hA, hO]

/-- C4: for every argument that decodes to a JSON value carrying the keys
`destination`, `check_in_date` and `check_out_date`, `search_hotels`
succeeds with the fixed three-offer mock string (names, prices and star
ratings), which is non-empty. -/
theorem claim_C4 (v dest ci co : JValue)
    (hd : jget v "destination" = .ok dest)
    (hi : jget v "check_in_date" = .ok ci)
    (ho : jget v "check_out_date" = .ok co) :
    search_hotels (.ok v) =
      "Found 3 hotels in " ++ pyStr dest ++
        ": 1. The Grand Hotel (₹8000/night, 4.5 stars), 2. City Inn (₹4500/night, 4.0 stars), 3. Budget Stay (₹2500/night, 3.5 stars)." ∧
      search_hotels (.ok v) ≠ "" := by
  have hp : hotelParse (.ok v) = .ok (dest, ci, co) := by
    simp [hotelParse, hd, hi, ho]
  refine ⟨by simp [search_hotels, hp], ?_⟩
  simp only [search_hotels, hp]
  rw [strAppend_assoc]
  exact strAppend_ne_empty_left _ _ (by decide)

/-- C4 witness: the concrete argument `hotelArgA` yields the mock-offer
string. -/
theorem claim_C4_witness :
    jget hotelArgA "destination" = .ok (.str "Goa") ∧
    jget hotelArgA "check_in_date" = .ok (.str "2025-10-15") ∧
    jget hotelArgA "check_out_date" = .ok (.str "2025-10-18") ∧
    (search_hotels (.ok hotelArgA) =
      "Found 3 hotels in " ++ pyStr (.str "Goa") ++
        ": 1. The Grand Hotel (₹8000/night, 4.5 stars), 2. City Inn (₹4500/night, 4.0 stars), 3. Budget Stay (₹2500/night, 3.5 stars)." ∧
      search_hotels (.ok hotelArgA) ≠ "") :=
  ⟨rfl, rfl, rfl,
   claim_C4 hotelArgA (.str "Goa") (.str "2025-10-15") (.str "2025-10-18")
     rfl rfl rfl⟩

/-- C10: two valid hotel-search arguments with the same `destination` value
but arbitrary (possibly different) dates produce the same success string —
the dates are required for success but never flow into the output. -/
theorem claim_C10 (v₁ v₂ dest ci₁ co₁ ci₂ co₂ : JValue)
    (hd₁ : jget v₁ "destination" = .ok dest)
    (hi₁ : jget v₁ "check_in_date" = .ok ci₁)
    (ho₁ : jget v₁ "check_out_date" = .ok co₁)
    (hd₂ : jget v₂ "destination" = .ok dest)
    (hi₂ : jget v₂ "check_in_date" = .ok ci₂)
    (ho₂ : jget v₂ "check_out_date" = .ok co₂) :
    search_hotels (.ok v₁) = search_hotels (.ok v₂) := by
  simp [search_hotels, hotelParse, hd₁, hi₁, ho₁, hd₂, hi₂, ho₂]

/-- C10 witness: `hotelArgA` and `hotelArgB` differ in both dates yet get
the same answer. -/
theorem claim_C10_witness :
    jget hotelArgA "destination" = .ok (.str "Goa") ∧
    jget hotelArgA "check_in_date" = .ok (.str "2025-10-15") ∧
    jget hotelArgA "check_out_date" = .ok (.str "2025-10-18") ∧
    jget hotelArgB "destination" = .ok (.str "Goa") ∧
    jget hotelArgB "check_in_date" = .ok (.str "2026-01-02") ∧
    jget hotelArgB "check_out_date" = .ok (.str "2026-01-05") ∧
    search_hotels (.ok hotelArgA) = search_hotels (.ok hotelArgB) :=
  ⟨rfl, rfl, rfl, rfl, rfl, rfl,
   claim_C10 hotelArgA hotelArgB (.str "Goa") (.str "2025-10-15")
     (.str "2025-10-18") (.str "2026-01-02") (.str "2026-01-05")
     rfl rfl rfl rfl rfl rfl⟩

/-- Any failing key lookup makes the hotel `try` block raise. -/
theorem hotelParse_error_of_missing (v : JValue)
    (h : (∃ e, jget v "destination" = .error e) ∨
         (∃ e, jget v "check_in_date" = .error e) ∨
         (∃ e, jget v "check_out_date" = .error e)) :
    ∃ e, hotelParse (.ok v) = .error e := by
  unfold hotelParse
  rcases h with ⟨e, he⟩ | ⟨e, he⟩ | ⟨e, he⟩ <;>
    cases h1 : jget v "destination" <;>
    cases h2 : jget v "check_in_date" <;>
    cases h3 : jget v "check_out_date" <;>
    simp_all

/-- Any failing key lookup makes the flight `try` block raise before the
HTTP call. -/
theorem flightParse_error_of_missing (v : JValue)
    (h : (∃ e, jget v "origin" = .error e) ∨
         (∃ e, jget v "destination" = .error e) ∨
         (∃ e, jget v "departure_date" = .error e)) :
    ∃ e, flightParse (.ok v) = .error e := by
  unfold flightParse
  rcases h with ⟨e, he⟩ | ⟨e, he⟩ | ⟨e, he⟩ <;>
    cases h1 : jget v "origin" <;>
    cases h2 : jget v "destination" <;>
    cases h3 : jget v "departure_date" <;>
    simp_all

/-- C3: for every argument that is not valid JSON (`json.loads` raises) or
whose decoded value lacks a required key, `search_hotels` returns its
`Error processing hotel search: ...` string and `search_flights` returns
its `An error occurred while searching for flights: ...` string — in both
cases a returned descriptive error text, never a raised exception, and for
the flight tool independently of the network. -/
theorem claim_C3 (argH argF : Except String JValue)
    (net : FlightQuery → HttpOutcome)
    (hH : (∃ e, argH = .error e) ∨
          (∃ v, argH = .ok v ∧
            ((∃ e, jget v "destination" = .error e) ∨
             (∃ e, jget v "check_in_date" = .error e) ∨
             (∃ e, jget v "check_out_date" = .error e))))
    (hF : (∃ e, argF = .error e) ∨
          (∃ v, argF = .ok v ∧
            ((∃ e, jget v "origin" = .error e) ∨
             (∃ e, jget v "destination" = .error e) ∨
             (∃ e, jget v "departure_date" = .error e)))) :
    (∃ r, search_hotels argH = "Error processing hotel search: " ++ r) ∧
    (∃ r, search_flights argF net =
      "An error occurred while searching for flights: " ++ r) := by
  constructor
  · have : ∃ e, hotelParse argH = .error e := by
      rcases hH with ⟨e, he⟩ | ⟨v, hv, hmiss⟩
      · exact ⟨e, by simp [hotelParse, he]⟩
      · exact hv ▸ hotelParse_error_of_missing v hmiss
    obtain ⟨e, he⟩ := this
    refine ⟨e ++ ". Please ensure the input is a valid JSON with 'destination', 'check_in_date', and 'check_out_date' keys.", ?_⟩
    simp only [search_hotels, he]
    rw [strAppend_assoc]
  · have : ∃ e, flightParse argF = .error e := by
      rcases hF with ⟨e, he⟩ | ⟨v, hv, hmiss⟩
      · exact ⟨e, by simp [flightParse, he]⟩
      · exact hv ▸ flightParse_error_of_missing v hmiss
    obtain ⟨e, he⟩ := this
    refine ⟨e ++ ". Please ensure the input is a valid JSON and the date is in YYYY-MM-DD format.", ?_⟩
    simp only [search_flights, search_flights_core, he, flightGenericError]
    rw [strAppend_assoc]

/-- C3 witness: a non-JSON hotel argument and a flight argument missing
`departure_date`. -/
theorem claim_C3_witness :
    ((∃ e, (Except.error "Expecting value: line 1 column 1 (char 0)" :
        Except String JValue) = .error e) ∨
      (∃ v, (Except.error "Expecting value: line 1 column 1 (char 0)" :
        Except String JValue) = .ok v ∧
        ((∃ e, jget v "destination" = .error e) ∨
         (∃ e, jget v "check_in_date" = .error e) ∨
         (∃ e, jget v "check_out_date" = .error e)))) ∧
    ((∃ e, (Except.ok (JValue.obj (.cons "origin" (.str "Mumbai") .nil)) :
        Except String JValue) = .error e) ∨
      (∃ v, (Except.ok (JValue.obj (.cons "origin" (.str "Mumbai") .nil)) :
        Except String JValue) = .ok v ∧
        ((∃ e, jget v "origin" = .error e) ∨
         (∃ e, jget v "destination" = .error e) ∨
         (∃ e, jget v "departure_date" = .error e)))) ∧
    ((∃ r, search_hotels (.error "Expecting value: line 1 column 1 (char 0)") =
        "Error processing hotel search: " ++ r) ∧
     (∃ r, search_flights (.ok (JValue.obj (.cons "origin" (.str "Mumbai") .nil)))
        (fun _ => .reqError "unreached") =
        "An error occurred while searching for flights: " ++ r)) :=
  have h1 : (∃ e, (Except.error "Expecting value: line 1 column 1 (char 0)" :
      Except String JValue) = .error e) ∨
      (∃ v, (Except.error "Expecting value: line 1 column 1 (char 0)" :
        Except String JValue) = .ok v ∧
        ((∃ e, jget v "destination" = .error e) ∨
         (∃ e, jget v "check_in_date" = .error e) ∨
         (∃ e, jget v "check_out_date" = .error e))) :=
    Or.inl ⟨_, rfl⟩
  have h2 : (∃ e, (Except.ok (JValue.obj (.cons "origin" (.str "Mumbai") .nil)) :
      Except String JValue) = .error e) ∨
      (∃ v, (Except.ok (JValue.obj (.cons "origin" (.str "Mumbai") .nil)) :
        Except String JValue) = .ok v ∧
        ((∃ e, jget v "origin" = .error e) ∨
         (∃ e, jget v "destination" = .error e) ∨
         (∃ e, jget v "departure_date" = .error e))) :=
    Or.inr ⟨_, rfl, Or.inr (Or.inl ⟨"'destination'", rfl⟩)⟩
  ⟨h1, h2, claim_C3 _ _ (fun _ => .reqError "unreached") h1 h2⟩

/-- C5: for every valid argument, whenever the upstream response decodes to
a body that is falsy, is an object without a (truthy) `data` entry, or whose
`data` object has no (truthy) `topFlights` entry, `search_flights` returns
the `No flights found from ... to ... on ...` message — it neither raises
nor returns an empty string (`noFlightsMsg` is a non-empty literal by
construction). -/
theorem claim_C5 (v oc dc dv body : JValue) (net : FlightQuery → HttpOutcome)
    (h1 : jget v "origin" = .ok oc)
    (h2 : jget v "destination" = .ok dc)
    (h3 : jget v "departure_date" = .ok dv)
    (hnet : net ⟨"BOM", "GOI", dv, "INR"⟩ = .response (.ok body))
    (hshape : pyTruthy body = false ∨
      (∃ o, body = .obj o ∧
        (o.find? "data" = none ∨
         ∃ df, o.find? "data" = some df ∧ pyTruthy df = false)) ∨
      (∃ o dfo, body = .obj o ∧ o.find? "data" = some (.obj dfo) ∧
        (dfo.find? "topFlights" = none ∨
         ∃ tf, dfo.find? "topFlights" = some tf ∧ pyTruthy tf = false))) :
    search_flights (.ok v) net = noFlightsMsg oc dc dv ∧
      search_flights (.ok v) net ≠ "" := by
  have hp : flightParse (.ok v) = .ok (oc, dc, dv) := by
    simp [flightParse, h1, h2, h3]
  have hh : flightResponseHandling oc dc dv body = .ok (noFlightsMsg oc dc dv) := by
    rcases hshape with hfalse | ⟨o, rfl, hdo⟩ | ⟨o, dfo, rfl, hdf, hto⟩
    · simp [flightResponseHandling, hfalse]
    · by_cases ht : pyTruthy (JValue.obj o) = false
      · simp [flightResponseHandling, ht]
      · rcases hdo with hnone | ⟨df, hsome, hdff⟩
        · simp [flightResponseHandling, ht, pyGet, hnone]
        · simp [flightResponseHandling, ht, pyGet, hsome, hdff]
    · by_cases ht : pyTruthy (JValue.obj o) = false
      · simp [flightResponseHandling, ht]
      · by_cases ht2 : pyTruthy (JValue.obj dfo) = false
        · simp [flightResponseHandling, ht, pyGet, hdf, ht2]
        · rcases hto with hnone | ⟨tf, hsome, htff⟩
          · simp [flightResponseHandling, ht, pyGet, hdf, ht2, hnone]
          · simp [flightResponseHandling, ht, pyGet, hdf, ht2, hsome, htff]
  have hmain : search_flights (.ok v) net = noFlightsMsg oc dc dv := by
    simp [search_flights, search_flights_core, hp, hnet, hh]
  refine ⟨hmain, ?_⟩
  rw [hmain, noFlightsMsg]
  simp only [strAppend_assoc]
  exact strAppend_ne_empty_left _ _ (by decide)

/-- The network environment answering every request with an empty JSON
object body. -/
def emptyBodyNet : FlightQuery → HttpOutcome :=
  fun _ => .response (.ok (.obj .nil))

/-- C5 witness: a valid argument against an upstream answering `{}`. -/
theorem claim_C5_witness :
    jget flightArgA "origin" = .ok (.str "Mumbai") ∧
    jget flightArgA "destination" = .ok (.str "Goa") ∧
    jget flightArgA "departure_date" = .ok (.str "2025-10-15") ∧
    emptyBodyNet ⟨"BOM", "GOI", .str "2025-10-15", "INR"⟩ =
      .response (.ok (.obj .nil)) ∧
    pyTruthy (.obj .nil) = false ∧
    (search_flights (.ok flightArgA) emptyBodyNet =
        noFlightsMsg (.str "Mumbai") (.str "Goa") (.str "2025-10-15") ∧
      search_flights (.ok flightArgA) emptyBodyNet ≠ "") :=
  ⟨rfl, rfl, rfl, rfl, rfl,
   claim_C5 flightArgA (.str "Mumbai") (.str "Goa") (.str "2025-10-15")
     (.obj .nil) emptyBodyNet rfl rfl rfl rfl (Or.inl rfl)⟩

/-- Every valid argument makes `search_flights` issue exactly the query
`{departure_airport_code: "BOM", arrival_airport_code: "GOI",
date: departure_date, currency: "INR"}`. -/
theorem search_flights_core_query (v oc dc dv : JValue)
    (net : FlightQuery → HttpOutcome)
    (h1 : jget v "origin" = .ok oc)
    (h2 : jget v "destination" = .ok dc)
    (h3 : jget v "departure_date" = .ok dv) :
    (search_flights_core (.ok v) net).2 = some ⟨"BOM", "GOI", dv, "INR"⟩ := by
  have hp : flightParse (.ok v) = .ok (oc, dc, dv) := by
    simp [flightParse, h1, h2, h3]
  simp only [search_flights_core, hp]
  cases hn : net ⟨"BOM", "GOI", dv, "INR"⟩ with
  | reqError e => simp [hn]
  | response r =>
    cases r with
    | error e => simp [hn]
    | ok data => cases hf : flightResponseHandling oc dc dv data <;> simp [hn, hf]

/-- C7: for every pair of valid arguments that agree on `departure_date`
(with arbitrary origins, destinations and network behaviours), the query
handed to `requests.get` is the fixed airport pair `BOM` → `GOI` with that
date — the decoded `origin` and `destination` never reach the outgoing
query. -/
theorem claim_C7 (v v' oc dc oc' dc' dv : JValue)
    (net net' : FlightQuery → HttpOutcome)
    (h1 : jget v "origin" = .ok oc)
    (h2 : jget v "destination" = .ok dc)
    (h3 : jget v "departure_date" = .ok dv)
    (h1' : jget v' "origin" = .ok oc')
    (h2' : jget v' "destination" = .ok dc')
    (h3' : jget v' "departure_date" = .ok dv) :
    (search_flights_core (.ok v) net).2 = some ⟨"BOM", "GOI", dv, "INR"⟩ ∧
    (search_flights_core (.ok v) net).2 = (search_flights_core (.ok v') net').2 :=
  ⟨search_flights_core_query v oc dc dv net h1 h2 h3,
   (search_flights_core_query v oc dc dv net h1 h2 h3).trans
     (search_flights_core_query v' oc' dc' dv net' h1' h2' h3').symm⟩

/-- C7 witness: `flightArgA` and `flightArgB` differ in origin and
destination, against different networks, yet issue the same fixed query. -/
theorem claim_C7_witness :
    jget flightArgA "origin" = .ok (.str "Mumbai") ∧
    jget flightArgA "destination" = .ok (.str "Goa") ∧
    jget flightArgA "departure_date" = .ok (.str "2025-10-15") ∧
    jget flightArgB "origin" = .ok (.str "Delhi") ∧
    jget flightArgB "destination" = .ok (.str "Kochi") ∧
    jget flightArgB "departure_date" = .ok (.str "2025-10-15") ∧
    ((search_flights_core (.ok flightArgA) emptyBodyNet).2 =
        some ⟨"BOM", "GOI", .str "2025-10-15", "INR"⟩ ∧
      (search_flights_core (.ok flightArgA) emptyBodyNet).2 =
        (search_flights_core (.ok flightArgB) (fun _ => .reqError "down")).2) :=
  ⟨rfl, rfl, rfl, rfl, rfl, rfl,
   claim_C7 flightArgA flightArgB (.str "Mumbai") (.str "Goa") (.str "Delhi")
     (.str "Kochi") (.str "2025-10-15") emptyBodyNet
     (fun _ => .reqError "down") rfl rfl rfl rfl rfl rfl⟩

/-- A `topFlights` entry on which the formatting loop body cannot raise: an
object whose `flights` entry, when present, is a list headed by an object,
and whose `duration` entry, when present, is an object.  (`price`, `stops`
and `airline` may be anything or absent: they are only interpolated, with
`'N/A'` defaults.) -/
def flightEntryWF : JValue → Bool
  | .obj fo =>
    (match fo.find? "flights" with
     | none => true
     | some (.arr (.cons (.obj _) _)) => true
     | some _ => false) &&
    (match fo.find? "duration" with
     | none => true
     | some (.obj _) => true
     | some _ => false)
  | _ => false

/-- The line the loop body produces for a well-formed entry. -/
def renderFlightStr (f : JValue) : String :=
  match f with
  | .obj fo =>
    let airline : JValue :=
      match fo.find? "flights" with
      | none => .str "N/A"
      | some (.arr (.cons (.obj first) _)) =>
        (first.find? "airline").getD (.str "N/A")
      | some _ => .str "N/A"
    let price : JValue := (fo.find? "price").getD (.str "N/A")
    let durText : JValue :=
      match fo.find? "duration" with
      | none => .str "N/A"
      | some (.obj d) => (d.find? "text").getD (.str "N/A")
      | some _ => .str "N/A"
    let stops : JValue := (fo.find? "stops").getD (.str "N/A")
    "- Airline: " ++ pyStr airline ++ ", Price: $" ++ pyStr price ++
      ", Duration: " ++ pyStr durText ++ ", Stops: " ++ pyStr stops
  | _ => ""

/-- On a well-formed entry the loop body returns its line instead of
raising. -/
theorem renderFlight_of_wf (f : JValue) (h : flightEntryWF f = true) :
    renderFlight f = .ok (renderFlightStr f) := by
  cases f with
  | obj fo =>
    simp only [flightEntryWF, Bool.and_eq_true] at h
    obtain ⟨hfl, hdur⟩ := h
    unfold renderFlight renderFlightStr
    cases hf : fo.find? "flights" with
    | none =>
      cases hd : fo.find? "duration" with
      | none =>
        simp [pyGetD, pyGet, hf, hd]
        cases hp : fo.find? "price" <;> cases hs : fo.find? "stops" <;>
          simp [pyIndex0, pyGetD, pyGet, JObject.find?,hp, hs]
      | some dv =>
        rw [hd] at hdur
        match dv, hdur with
        | .obj d, _ =>
          simp [pyGetD, pyGet, hf, hd]
          cases hp : fo.find? "price" <;> cases hs : fo.find? "stops" <;>
            cases ht : d.find? "text" <;>
            simp [pyIndex0, pyGetD, pyGet, JObject.find?,hp, hs, ht]
    | some flv =>
      rw [hf] at hfl
      match flv, hfl with
      | .arr (.cons (.obj first) tl), _ =>
        cases hd : fo.find? "duration" with
        | none =>
          simp [pyGetD, pyGet, hf, hd]
          cases ha : first.find? "airline" <;> cases hp : fo.find? "price" <;>
            cases hs : fo.find? "stops" <;>
            simp [pyIndex0, pyGetD, pyGet, JObject.find?,ha, hp, hs]
        | some dv =>
          rw [hd] at hdur
          match dv, hdur with
          | .obj d, _ =>
            simp [pyGetD, pyGet, hf, hd]
            cases ha : first.find? "airline" <;> cases hp : fo.find? "price" <;>
              cases hs : fo.find? "stops" <;> cases ht : d.find? "text" <;>
              simp [pyIndex0, pyGetD, pyGet, JObject.find?,ha, hp, hs, ht]
  | null => simp [flightEntryWF] at h
  | bool b => simp [flightEntryWF] at h
  | num n => simp [flightEntryWF] at h
  | str s => simp [flightEntryWF] at h
  | arr a => simp [flightEntryWF] at h

/-- The loop renders a list of well-formed entries without raising. -/
theorem renderFlights_of_wf (l : List JValue)
    (h : ∀ f ∈ l, flightEntryWF f = true) :
    renderFlights l = .ok (l.map renderFlightStr) := by
  induction l with
  | nil => rfl
  | cons f fs ih =>
    have hf := renderFlight_of_wf f (h f (List.mem_cons_self f fs))
    have hfs := ih (fun g hg => h g (List.mem_cons_of_mem f hg))
    simp [renderFlights, hf, hfs]

/-- C6 (amended): for every upstream response whose body carries a
non-empty `data.topFlights` list of well-formed entries (objects whose
`flights` entry, if present, is a list headed by an object and whose
`duration` entry, if present, is an object), `search_flights` returns the
header line followed by the renderings of at most the first 3 entries of
the list — each line carrying airline, price, duration text and stops with
`N/A` for absent fields — regardless of the list's length. -/
theorem claim_C6_amended (v oc dc dv : JValue) (net : FlightQuery → HttpOutcome)
    (o dfo : JObject) (l : JArray)
    (h1 : jget v "origin" = .ok oc)
    (h2 : jget v "destination" = .ok dc)
    (h3 : jget v "departure_date" = .ok dv)
    (hnet : net ⟨"BOM", "GOI", dv, "INR"⟩ = .response (.ok (.obj o)))
    (hdata : o.find? "data" = some (.obj dfo))
    (htf : dfo.find? "topFlights" = some (.arr l))
    (hne : l ≠ JArray.nil)
    (hwf : ∀ f ∈ l.toList.take 3, flightEntryWF f = true) :
    search_flights (.ok v) net =
      "Here are the top flight options:\n" ++
        String.intercalate "\n" ((l.toList.take 3).map renderFlightStr) ∧
    (l.toList.take 3).length ≤ 3 := by
  have hp : flightParse (.ok v) = .ok (oc, dc, dv) := by
    simp [flightParse, h1, h2, h3]
  have hto : pyTruthy (JValue.obj o) = true := by
    cases o with
    | nil => simp [JObject.find?] at hdata
    | cons k x tl => rfl
  have htd : pyTruthy (JValue.obj dfo) = true := by
    cases dfo with
    | nil => simp [JObject.find?] at htf
    | cons k x tl => rfl
  cases l with
  | nil => exact absurd rfl hne
  | cons f0 tl =>
    have hr : renderFlights ((JArray.cons f0 tl).toList.take 3) =
        .ok (((JArray.cons f0 tl).toList.take 3).map renderFlightStr) :=
      renderFlights_of_wf _ hwf
    refine ⟨?_, by simpa using List.length_take_le 3 (JArray.cons f0 tl).toList⟩
    have hrh : flightResponseHandling oc dc dv (JValue.obj o) =
        .ok ("Here are the top flight options:\n" ++
          String.intercalate "\n"
            (((JArray.cons f0 tl).toList.take 3).map renderFlightStr)) := by
      have hr' : renderFlights (f0 :: tl.toList.take 2) =
          .ok (renderFlightStr f0 :: (tl.toList.take 2).map renderFlightStr) := by
        simpa using hr
      have hta : pyTruthy (JValue.arr (JArray.cons f0 tl)) = true := rfl
      simp [flightResponseHandling, hto, pyGet, hdata, htd, htf, pySlice3,
        hta, hr', JArray.toList]
    simp [search_flights, search_flights_core, hp, hnet, hrh]

/-- An upstream body whose `data.topFlights` list holds a single entry that
is a bare string instead of an object. -/
def flightsBadBody : JValue :=
  .obj (.cons "data"
    (.obj (.cons "topFlights" (.arr (.cons (.str "oops") .nil)) .nil)) .nil)

/-- C6 counterexample: the claim as stated quantifies over *every*
response carrying a `data.topFlights` list, but on a list holding the entry
`"oops"` the loop body's `.get` raises `AttributeError` and the tool
returns the generic error text instead of a formatted rendering of the
entries. -/
theorem claim_C6_counterexample :
    search_flights (.ok flightArgA) (fun _ => .response (.ok flightsBadBody)) =
      "An error occurred while searching for flights: 'str' object has no attribute 'get'. Please ensure the input is a valid JSON and the date is in YYYY-MM-DD format." :=
  rfl

/-- A `topFlights` list with four entries: one fully populated, three empty
objects (every field absent). -/
def topFlightsW : JArray :=
  .cons (.obj (.cons "flights"
      (.arr (.cons (.obj (.cons "airline" (.str "IndiGo") .nil)) .nil))
      (.cons "price" (.num 120)
        (.cons "duration" (.obj (.cons "text" (.str "1h 15m") .nil))
          (.cons "stops" (.num 0) .nil)))))
    (.cons (.obj .nil) (.cons (.obj .nil) (.cons (.obj .nil) .nil)))

/-- The upstream body carrying `topFlightsW` under `data.topFlights`. -/
def flightsGoodBody : JValue :=
  .obj (.cons "data" (.obj (.cons "topFlights" (.arr topFlightsW) .nil)) .nil)

/-- C6 witness: on the four-entry list only the first three entries are
rendered. -/
theorem claim_C6_witness :
    jget flightArgA "origin" = .ok (.str "Mumbai") ∧
    jget flightArgA "destination" = .ok (.str "Goa") ∧
    jget flightArgA "departure_date" = .ok (.str "2025-10-15") ∧
    (fun (_ : FlightQuery) => HttpOutcome.response (.ok flightsGoodBody))
        ⟨"BOM", "GOI", .str "2025-10-15", "INR"⟩ =
      .response (.ok flightsGoodBody) ∧
    (∀ f ∈ topFlightsW.toList.take 3, flightEntryWF f = true) ∧
    (search_flights (.ok flightArgA)
        (fun _ => .response (.ok flightsGoodBody)) =
      "Here are the top flight options:\n" ++
        String.intercalate "\n"
          ((topFlightsW.toList.take 3).map renderFlightStr) ∧
      (topFlightsW.toList.take 3).length ≤ 3) :=
  ⟨rfl, rfl, rfl, rfl, by decide,
   claim_C6_amended flightArgA (.str "Mumbai") (.str "Goa")
     (.str "2025-10-15") (fun _ => .response (.ok flightsGoodBody))
     (.cons "data" (.obj (.cons "topFlights" (.arr topFlightsW) .nil)) .nil)
     (.cons "topFlights" (.arr topFlightsW) .nil) topFlightsW
     rfl rfl rfl rfl rfl rfl (fun h => JArray.noConfusion h) (by decide)⟩

theorem digitChar_isDigit (n : Nat) (h : n < 10) :
    (Nat.digitChar n).isDigit = true := by
  interval_cases n <;> decide

theorem decDigits_all_digit (fuel n : Nat) :
    (decDigits fuel n).all Char.isDigit = true := by
  induction fuel generalizing n with
  | zero => rfl
  | succ f ih =>
    by_cases h : n < 10
    · simp [decDigits, h, digitChar_isDigit n h]
    · have h10 : n % 10 < 10 := Nat.mod_lt _ (by norm_num)
      simp [decDigits, h, List.all_append, ih, digitChar_isDigit _ h10]

theorem decDigits_length (k : Nat) :
    ∀ fuel n, k + 1 ≤ fuel → 10 ^ k ≤ n → n < 10 ^ (k + 1) →
      (decDigits fuel n).length = k + 1 := by
  induction k with
  | zero =>
    intro fuel n hf h1 h2
    match fuel, hf with
    | f + 1, _ =>
      have hn : n < 10 := by simpa using h2
      simp [decDigits, hn]
  | succ k ih =>
    intro fuel n hf h1 h2
    match fuel, hf with
    | f + 1, hf =>
      have hpow : (10 : Nat) ≤ 10 ^ (k + 1) := by
        calc (10 : Nat) = 10 ^ 1 := (pow_one 10).symm
        _ ≤ 10 ^ (k + 1) := Nat.pow_le_pow_right (by norm_num) (by omega)
      have h10 : ¬ n < 10 := by omega
      have hdiv1 : 10 ^ k ≤ n / 10 := by
        rw [Nat.le_div_iff_mul_le (by norm_num : (0 : Nat) < 10)]
        calc 10 ^ k * 10 = 10 ^ (k + 1) := (pow_succ 10 k).symm
        _ ≤ n := h1
      have hdiv2 : n / 10 < 10 ^ (k + 1) := by
        rw [Nat.div_lt_iff_lt_mul (by norm_num : (0 : Nat) < 10)]
        calc n < 10 ^ (k + 2) := h2
        _ = 10 ^ (k + 1) * 10 := pow_succ 10 (k + 1)
      have hlen := ih f (n / 10) (by omega) hdiv1 hdiv2
      simp [decDigits, h10, hlen]

theorem decRepr_length_four (y : Nat) (h1 : 1000 ≤ y) (h2 : y < 10000) :
    (decRepr y).length = 4 := by
  have := decDigits_length 3 (y + 1) y (by omega) (by norm_num; omega)
    (by norm_num; omega)
  simpa [decRepr, String.length] using this

theorem decRepr_all_digit (n : Nat) :
    (decRepr n).data.all Char.isDigit = true := by
  simpa [decRepr] using decDigits_all_digit (n + 1) n

theorem pad2_length (d : Nat) (h2 : d ≤ 31) : (pad2 d).length = 2 := by
  by_cases h : d < 10
  · have hdd : decDigits (d + 1) d = [Nat.digitChar d] := by
      simp [decDigits, h]
    simp [pad2, h, decRepr, hdd, String.length, String.data_append']
  · have := decDigits_length 1 (d + 1) d (by omega) (by norm_num; omega)
      (by norm_num; omega)
    simpa [pad2, h, decRepr, String.length] using this

theorem pad2_all_digit (d : Nat) : (pad2 d).data.all Char.isDigit = true := by
  by_cases h : d < 10
  · have := decDigits_all_digit (d + 1) d
    simp [pad2, h, decRepr, String.data_append'] at this ⊢
    exact this
  · simpa [pad2, h, decRepr] using decDigits_all_digit (d + 1) d

def monthNames : List String :=
  ["January", "February", "March", "April", "May", "June", "July",
   "August", "September", "October", "November", "December"]

theorem weekdayNames_getD_mem (i : Nat) (h : i < 7) :
    weekdayNames.getD i "" ∈ weekdayNames := by
  interval_cases i <;> decide

theorem monthName_mem (m : Nat) (h1 : 1 ≤ m) (h2 : m ≤ 12) :
    monthName m ∈ monthNames := by
  interval_cases m <;> decide

/-- C8: for every valid system date and every input string, the tool's
output is exactly `"Today's date is <Weekday>, <Month> <DD>, <YYYY>."` —
the weekday one of the seven weekday names, the month one of the twelve
month names, the day two digits, the year four digits. -/
theorem claim_C8 (today : PyDate) (query : String) (h : today.valid) :
    ∃ w mo, w ∈ weekdayNames ∧ mo ∈ monthNames ∧
      (pad2 today.day).length = 2 ∧
      (pad2 today.day).data.all Char.isDigit = true ∧
      (decRepr today.year).length = 4 ∧
      (decRepr today.year).data.all Char.isDigit = true ∧
      get_current_date today query =
        "Today's date is " ++ w ++ ", " ++ mo ++ " " ++ pad2 today.day ++
          ", " ++ decRepr today.year ++ "." := by
  obtain ⟨hm1, hm2, _, hd2, hy1, hy2⟩ := h
  refine ⟨weekdayName today, monthName today.month, ?_, monthName_mem _ hm1 hm2,
    pad2_length _ hd2, pad2_all_digit _, decRepr_length_four _ hy1 hy2,
    decRepr_all_digit _, rfl⟩
  have hlt : dayOfWeekIndex today < 7 := Nat.mod_lt _ (by norm_num)
  simpa [weekdayName] using weekdayNames_getD_mem _ hlt

/-- C8 witness: the date 2025-10-15 renders as a Wednesday in October. -/
theorem claim_C8_witness :
    (PyDate.mk 2025 10 15).valid ∧
    (∃ w mo, w ∈ weekdayNames ∧ mo ∈ monthNames ∧
      (pad2 (PyDate.mk 2025 10 15).day).length = 2 ∧
      (pad2 (PyDate.mk 2025 10 15).day).data.all Char.isDigit = true ∧
      (decRepr (PyDate.mk 2025 10 15).year).length = 4 ∧
      (decRepr (PyDate.mk 2025 10 15).year).data.all Char.isDigit = true ∧
      get_current_date (PyDate.mk 2025 10 15) "" =
        "Today's date is " ++ w ++ ", " ++ mo ++ " " ++
          pad2 (PyDate.mk 2025 10 15).day ++ ", " ++
          decRepr (PyDate.mk 2025 10 15).year ++ ".") :=
  ⟨by decide, claim_C8 ⟨2025, 10, 15⟩ "" (by decide)⟩

/-- C9: if the model never produces a `Final Answer:` shape, the loop built
by `create_trip_planner_agent` stops after its framework-default iteration
cap with the execution-limit failure instead of looping forever.
(Modelled from the spec: the loop itself lives in the external framework.) -/
theorem claim_C9 (env : AgentEnv) (loads : String → Except String JValue)
    (llm : List TraceStep → ModelOutput)
    (h : ∀ transcript text, llm transcript ≠ .finalAnswer text) :
    runTripPlannerAgent env loads llm =
      .error "Agent stopped due to iteration limit or time limit." := by
  have key : ∀ fuel transcript, runReactLoop env loads llm fuel transcript =
      .error "Agent stopped due to iteration limit or time limit." := by
    intro fuel
    induction fuel with
    | zero => intro transcript; rfl
    | succ f ih =>
      intro transcript
      simp only [runReactLoop]
      cases hc : llm transcript with
      | finalAnswer t => exact absurd hc (h transcript t)
      | action name input => simp [hc, ih]
  exact key agentExecutorMaxIterations []

/-- A model that always requests another `web_search` call. -/
def stubbornLLM : List TraceStep → ModelOutput :=
  fun _ => .action "web_search" "beaches in Goa"

/-- A decoder standing in for `json.loads` inside the loop model. -/
def loadsStub : String → Except String JValue :=
  fun _ => .error "Expecting value: line 1 column 1 (char 0)"

/-- C9 witness: the always-acting model hits the 15-iteration cap. -/
theorem claim_C9_witness :
    (∀ transcript text,
      stubbornLLM transcript ≠ ModelOutput.finalAnswer text) ∧
    runTripPlannerAgent failingSearchEnv loadsStub stubbornLLM =
      .error "Agent stopped due to iteration limit or time limit." :=
  ⟨fun _ _ hEq => ModelOutput.noConfusion hEq,
   claim_C9 failingSearchEnv loadsStub stubbornLLM
     (fun _ _ hEq => ModelOutput.noConfusion hEq)⟩
